import Mathlib

/-!
# Verification of the trigger_bot ranking and list-curation pipeline

Shallow embedding of the core of the `trigger_bot` repository:

* `src/top_monde_ranking.py` — the scoring transform that enriches a ticker
  snapshot with derived performance/technical columns and two composite
  scores (`_calculate_performance_columns`, `_calculate_technical_indicators`,
  `_calculate_scores`, `_process_dataframe`);
* `src/ticker_list.py` — the list curator that selects `Exchange:Symbol`
  tokens into named output lists (`get_latest_top_monde_file`,
  `create_ticker_lists` with its nested `format_ticker_list` and
  `create_unified_list`).

Modelling conventions:

* pandas float64 cells are modelled by `PVal`: an exact rational (`num`),
  a signed infinity (`inf`), or `nan` (pandas null).  The arithmetic used by
  the code (`+`, `/` and comparisons) is mirrored with the IEEE special-value
  rules numpy follows: `nan` propagates, a nonzero value divided by zero
  gives a signed infinity, `0/0` gives `nan`, and every comparison against
  `nan` is false.  (A rational-valued `num` stands for the exact decimal the
  CSV carries; binary floating-point rounding error is not modelled.)
* `df[cols].sum(axis=1)` uses pandas' default `skipna=True`: the row sum
  skips `nan` cells (`sumSkipna`).
* `round(2)` is numpy's round-half-to-even on two decimals (`round2`).
* `sort_values` is modelled as a deterministic stable sort
  (`List.insertionSort`) on the comparison the code requests, with `nan`
  keys placed last (pandas' `na_position="last"`).  The actual call uses
  pandas' default `kind="quicksort"`, whose tie order is not specified;
  where a claim depends on that tie order this development does not decide
  it (see the sorting-stability claim).
* A dataframe is a `List Row`; the raw CSV's `Market capitalization` cell is
  carried as a `PVal` in which `nan` stands for a value
  `pd.to_numeric(..., errors="coerce")` turns into null.
-/

namespace TriggerBot

/-- A pandas float64 cell: `nan` (null), a signed infinity (`inf true` is
`-inf`), or an exact rational. -/
inductive PVal where
  | nan : PVal
  | inf : Bool → PVal
  | num : ℚ → PVal
deriving DecidableEq, Repr

namespace PVal

/-- IEEE addition as numpy performs it on float64 cells. -/
def padd : PVal → PVal → PVal
  | nan, _ => nan
  | _, nan => nan
  | inf s, inf t => if s = t then inf s else nan
  | inf s, num _ => inf s
  | num _, inf t => inf t
  | num a, num b => num (a + b)

/-- IEEE division as numpy performs it on float64 cells (denominator zeros
from the CSV are positive zeros): `x/0 = ±inf` for `x ≠ 0`, `0/0 = nan`. -/
def pdiv : PVal → PVal → PVal
  | nan, _ => nan
  | _, nan => nan
  | inf _, inf _ => nan
  | inf s, num b => inf (s ≠ decide (b < 0))
  | num _, inf _ => num 0
  | num a, num b =>
    if b = 0 then (if a = 0 then nan else inf (decide (a < 0))) else num (a / b)

/-- IEEE `a ≤ b`; any comparison with `nan` is false. -/
def leb : PVal → PVal → Bool
  | nan, _ => false
  | _, nan => false
  | inf s, inf t => s || !t
  | inf s, num _ => s
  | num _, inf t => !t
  | num a, num b => decide (a ≤ b)

/-- IEEE `a < b`; any comparison with `nan` is false. -/
def ltb : PVal → PVal → Bool
  | nan, _ => false
  | _, nan => false
  | inf s, inf t => s && !t
  | inf s, num _ => s
  | num _, inf t => !t
  | num a, num b => decide (a < b)

/-- IEEE `a ≥ b` (used for the `>=` filters). -/
def geb (a b : PVal) : Bool := leb b a

/-- IEEE `a > b` (used for the `> 0` filter). -/
def gtb (a b : PVal) : Bool := ltb b a

/-- `fillna(0)` on one cell. -/
def fillna0 : PVal → PVal
  | nan => num 0
  | v => v

end PVal

open PVal

/-- Round half to even on an exact rational, numpy's tie rule for `round`. -/
def rhe (x : ℚ) : ℤ :=
  if x - ⌊x⌋ < 1/2 then ⌊x⌋
  else if 1/2 < x - ⌊x⌋ then ⌊x⌋ + 1
  else if 2 ∣ ⌊x⌋ then ⌊x⌋ else ⌊x⌋ + 1

/-- `round(x, 2)` on an exact rational. -/
def round2 (x : ℚ) : ℚ := (rhe (x * 100) : ℚ) / 100

/-- `round(2)` on a cell: `nan` and infinities are left as they are. -/
def round2v : PVal → PVal
  | PVal.nan => PVal.nan
  | PVal.inf s => PVal.inf s
  | PVal.num q => PVal.num (round2 q)

/-- One row of the TOP MONDE table: the input columns of
`src/top_monde_ranking.py` / `src/ticker_list.py` plus the eight derived
columns the transform assigns (present so that the transform can be re-run
on its own output; `_process_dataframe` overwrites all eight). -/
structure Row where
  symbol : String
  exchange : String
  price : PVal
  market_capitalization : PVal
  perf_1y : PVal
  perf_6m : PVal
  perf_3m : PVal
  perf_1m : PVal
  sma_21 : PVal
  sma_200 : PVal
  perf_sum : PVal
  perf_norm : PVal
  perfsum_2 : PVal
  perf_norm_2 : PVal
  MRAT : PVal
  Diff : PVal
  score : PVal
  score_2 : PVal
deriving DecidableEq, Repr

/-- `df[perf_columns].sum(axis=1)` with pandas' default `skipna=True`:
`nan` cells are skipped, an all-`nan` row sums to `0.0`. -/
def sumSkipna (vs : List PVal) : PVal :=
  (vs.filter (fun v => v ≠ PVal.nan)).foldl padd (PVal.num 0)

/-- `_calculate_performance_columns` of `src/top_monde_ranking.py`:
`perf_sum` from the 1-year/6-month/3-month columns,
`perf_norm = 1 + perf_sum/1000`, `perfsum_2` from the
1-month/3-month/6-month columns, `perf_norm_2 = 1 + perfsum_2/1000`. -/
def calculate_performance_columns (r : Row) : Row :=
  let ps := sumSkipna [r.perf_1y, r.perf_6m, r.perf_3m]
  let ps2 := sumSkipna [r.perf_1m, r.perf_3m, r.perf_6m]
  { r with
    perf_sum := ps
    perf_norm := padd (PVal.num 1) (pdiv ps (PVal.num 1000))
    perfsum_2 := ps2
    perf_norm_2 := padd (PVal.num 1) (pdiv ps2 (PVal.num 1000)) }

/-- `_calculate_technical_indicators`: `MRAT = SMA21/SMA200`,
`Diff = Price/SMA200`. -/
def calculate_technical_indicators (r : Row) : Row :=
  { r with
    MRAT := pdiv r.sma_21 r.sma_200
    Diff := pdiv r.price r.sma_200 }

/-- `_calculate_scores`: `score = perf_norm + MRAT`,
`score_2 = perf_norm_2 + MRAT`. -/
def calculate_scores (r : Row) : Row :=
  { r with
    score := padd r.perf_norm r.MRAT
    score_2 := padd r.perf_norm_2 r.MRAT }

/-- `df[calculated_columns] = df[calculated_columns].fillna(0)`: nulls in the
eight derived columns are replaced by `0`. -/
def fillna_derived (r : Row) : Row :=
  { r with
    perf_sum := fillna0 r.perf_sum
    perf_norm := fillna0 r.perf_norm
    perfsum_2 := fillna0 r.perfsum_2
    perf_norm_2 := fillna0 r.perf_norm_2
    MRAT := fillna0 r.MRAT
    Diff := fillna0 r.Diff
    score := fillna0 r.score
    score_2 := fillna0 r.score_2 }

/-- `df[numeric_columns] = df[numeric_columns].round(2)`: every numeric
column of the frame is rounded to two decimals (the string identity columns
are untouched; the capitalization column is modelled as numeric). -/
def round_numeric (r : Row) : Row :=
  { r with
    price := round2v r.price
    market_capitalization := round2v r.market_capitalization
    perf_1y := round2v r.perf_1y
    perf_6m := round2v r.perf_6m
    perf_3m := round2v r.perf_3m
    perf_1m := round2v r.perf_1m
    sma_21 := round2v r.sma_21
    sma_200 := round2v r.sma_200
    perf_sum := round2v r.perf_sum
    perf_norm := round2v r.perf_norm
    perfsum_2 := round2v r.perfsum_2
    perf_norm_2 := round2v r.perf_norm_2
    MRAT := round2v r.MRAT
    Diff := round2v r.Diff
    score := round2v r.score
    score_2 := round2v r.score_2 }

/-- The row-wise part of `_process_dataframe`: derive, null-fill, round. -/
def process_row (r : Row) : Row :=
  round_numeric (fillna_derived
    (calculate_scores (calculate_technical_indicators
      (calculate_performance_columns r))))

/-- The key order of `sort_values(..., ascending=False)` on one cell: `x`
may precede `y` when `x` is not below `y`, with `nan` keys placed last
(pandas' default `na_position="last"`). -/
def pv_desc_le (x y : PVal) : Bool :=
  match x, y with
  | PVal.nan, PVal.nan => true
  | PVal.nan, _ => false
  | _, PVal.nan => true
  | x, y => leb y x

/-- The key order of `sort_values(..., ascending=True)` on one cell, with
`nan` keys placed last. -/
def pv_asc_le (x y : PVal) : Bool :=
  match x, y with
  | PVal.nan, PVal.nan => true
  | PVal.nan, _ => false
  | _, PVal.nan => true
  | x, y => leb x y

/-- `sort_values(by="score", ascending=False)` row order. -/
def score_desc (a b : Row) : Prop := pv_desc_le a.score b.score = true

instance : DecidableRel score_desc := fun _ _ => instDecidableEqBool _ _

/-- `sort_values(by="score", ascending=True)` row order. -/
def score_asc (a b : Row) : Prop := pv_asc_le a.score b.score = true

instance : DecidableRel score_asc := fun _ _ => instDecidableEqBool _ _

/-- `sort_values(by="score_2", ascending=False)` row order (used only by
the spec-modelled tiered selection of claim C1). -/
def score2_desc (a b : Row) : Prop := pv_desc_le a.score_2 b.score_2 = true

instance : DecidableRel score2_desc := fun _ _ => instDecidableEqBool _ _

/-- `_process_dataframe` of `src/top_monde_ranking.py`: compute the derived
columns, null-fill them, round every numeric column, sort by `score`
descending. -/
def process_dataframe (rows : List Row) : List Row :=
  (rows.map process_row).insertionSort score_desc

theorem leb_total (x y : PVal) (hx : x ≠ PVal.nan) (hy : y ≠ PVal.nan) :
    leb x y = true ∨ leb y x = true := by
  cases x with
  | nan => exact absurd rfl hx
  | inf s =>
    cases y with
    | nan => exact absurd rfl hy
    | inf t => cases s <;> cases t <;> simp [leb]
    | num b => cases s <;> simp [leb]
  | num a =>
    cases y with
    | nan => exact absurd rfl hy
    | inf t => cases t <;> simp [leb]
    | num b => simpa [leb] using le_total a b

theorem leb_trans (x y z : PVal) (h1 : leb x y = true) (h2 : leb y z = true) :
    leb x z = true := by
  cases x <;> cases y <;> cases z <;>
    simp_all only [leb, Bool.or_eq_true, Bool.not_eq_true', decide_eq_true_eq] <;>
    first
      | rfl
      | (rename_i s t u; cases s <;> cases t <;> cases u <;> simp_all)
      | (rename_i s t; cases s <;> cases t <;> simp_all)
      | exact le_trans h1 h2

theorem pv_desc_le_total (x y : PVal) : pv_desc_le x y = true ∨ pv_desc_le y x = true := by
  cases x <;> cases y <;>
    simp only [pv_desc_le] <;>
    first
      | simp
      | exact (leb_total _ _ (by simp) (by simp)).symm

theorem pv_desc_le_trans (x y z : PVal) (h1 : pv_desc_le x y = true)
    (h2 : pv_desc_le y z = true) : pv_desc_le x z = true := by
  cases x <;> cases y <;> cases z <;> simp_all [pv_desc_le] <;>
    exact leb_trans _ _ _ h2 h1

theorem pv_asc_le_total (x y : PVal) : pv_asc_le x y = true ∨ pv_asc_le y x = true := by
  cases x <;> cases y <;>
    simp only [pv_asc_le] <;>
    first
      | simp
      | exact leb_total _ _ (by simp) (by simp)

theorem pv_asc_le_trans (x y z : PVal) (h1 : pv_asc_le x y = true)
    (h2 : pv_asc_le y z = true) : pv_asc_le x z = true := by
  cases x <;> cases y <;> cases z <;> simp_all [pv_asc_le] <;>
    exact leb_trans _ _ _ h1 h2

instance : IsTotal Row score_desc := ⟨fun a b => pv_desc_le_total a.score b.score⟩

instance : IsTrans Row score_desc :=
  ⟨fun _ _ _ h1 h2 => pv_desc_le_trans _ _ _ h1 h2⟩

instance : IsTotal Row score_asc := ⟨fun a b => pv_asc_le_total a.score b.score⟩

instance : IsTrans Row score_asc :=
  ⟨fun _ _ _ h1 h2 => pv_asc_le_trans _ _ _ h1 h2⟩

instance : IsTotal Row score2_desc := ⟨fun a b => pv_desc_le_total a.score_2 b.score_2⟩

instance : IsTrans Row score2_desc :=
  ⟨fun _ _ _ h1 h2 => pv_desc_le_trans _ _ _ h1 h2⟩

/-! ## `src/ticker_list.py` — the list curator -/

/-- The required-column check of `create_ticker_lists`:
`[col for col in required_columns if col not in df.columns]`. -/
def missing_columns (required cols : List String) : List String :=
  required.filter (fun c => !(cols.contains c))

/-- The fixed `required_columns` list of `create_ticker_lists`. -/
def required_columns : List String :=
  ["Symbol", "Exchange", "Market capitalization", "score"]

/-- `df["Market capitalization"] >= 10000000000` after the
`pd.to_numeric(..., errors="coerce")` coercion (an unparsable cell is `nan`
and the comparison with `nan` is false, so such a record is excluded). -/
def cap_qualifies (r : Row) : Bool :=
  geb r.market_capitalization (PVal.num 10000000000)

/-- One entry of `format_ticker_list`: the token `f"{market}:{symbol}"`. -/
def format_ticker (r : Row) : String := r.exchange ++ ":" ++ r.symbol

/-- `format_ticker_list`: one token per row, in row order. -/
def format_ticker_list (rows : List Row) : List String := rows.map format_ticker

/-- The Top-30 tokens of `create_ticker_lists`: coerce capitalization,
filter to `>= 10_000_000_000`, sort by `score` descending, `head(30)`,
format. -/
def top_30_list (rows : List Row) : List String :=
  format_ticker_list (((rows.filter cap_qualifies).insertionSort score_desc).take 30)

/-- The Top-50-global tokens: the whole frame sorted by `score` descending,
`head(50)`, formatted. -/
def top_50_global_list (rows : List Row) : List String :=
  format_ticker_list ((rows.insertionSort score_desc).take 50)

/-- `create_unified_list` of `src/ticker_list.py`: a section header, the
Top-30 tokens, a second section header, then the Top-50-global tokens with
any token already present in the Top-30 section skipped (the loop appends
`ticker` only when `ticker not in set(top_30_list)`). -/
def create_unified_list (top30 top50 : List String) : List String :=
  top50.foldl
    (fun acc t => if t ∈ top30 then acc else acc ++ [t])
    (["// Top 30 Big"] ++ top30 ++ ["// Top 50 Global"])

/-- The score-threshold tokens: `df[df["score"] >= 2.7]` sorted by `score`
descending, formatted. -/
def score_27_list (rows : List Row) : List String :=
  format_ticker_list
    ((rows.filter (fun r => geb r.score (PVal.num (27/10)))).insertionSort score_desc)

/-- The worst-performers tokens: `df[df["score"] > 0]` sorted by `score`
ascending, `head(100)`, formatted. -/
def worst_100_list (rows : List Row) : List String :=
  format_ticker_list
    (((rows.filter (fun r => gtb r.score (PVal.num 0))).insertionSort score_asc).take 100)

/-! ## `get_latest_top_monde_file` — selection of the enhanced snapshot

The filename manipulation is Python string processing
(`replace`, `in`, `split`, `strptime`); it is embedded over `List Char`
with structurally recursive models of those operations. -/

/-- Does `pat` occur at the start of `s`? (`str.startswith`). -/
def starts_with : List Char → List Char → Bool
  | [], _ => true
  | _ :: _, [] => false
  | p :: ps, c :: cs => p = c && starts_with ps cs

/-- Python's `pat in s` substring test (for nonempty `pat`). -/
def py_in (pat : List Char) : List Char → Bool
  | [] => starts_with pat []
  | c :: cs => starts_with pat (c :: cs) || py_in pat cs

/-- The left-to-right scan of Python's `s.replace(pat, rep)`, structurally
recursive on a fuel that bounds the remaining length (each step consumes at
least one character of `s`, so `s.length` fuel is always enough). -/
def py_replace_go (pat rep : List Char) : Nat → List Char → List Char
  | _, [] => []
  | 0, s => s
  | fuel + 1, c :: cs =>
    if starts_with pat (c :: cs) && !pat.isEmpty then
      rep ++ py_replace_go pat rep fuel ((c :: cs).drop pat.length)
    else
      c :: py_replace_go pat rep fuel cs

/-- Python's `s.replace(pat, rep)` for a nonempty `pat`: every
non-overlapping occurrence is replaced, scanning left to right. -/
def py_replace (pat rep s : List Char) : List Char :=
  py_replace_go pat rep s.length s

/-- `date_str.split(" ")[0]`: the characters before the first space. -/
def first_space_field (s : List Char) : List Char :=
  s.takeWhile (fun c => c ≠ ' ')

/-- A parsed `YYYY-MM-DD` date. -/
structure Date where
  y : Nat
  m : Nat
  d : Nat
deriving DecidableEq, Repr

/-- Strict lexicographic order on dates (`file_date > latest_date`). -/
def date_ltb (a b : Date) : Bool :=
  a.y < b.y || (a.y = b.y && (a.m < b.m || (a.m = b.m && a.d < b.d)))

/-- Gregorian leap year, as `datetime` validates the day of month. -/
def is_leap (y : Nat) : Bool :=
  (y % 4 = 0 && y % 100 ≠ 0) || y % 400 = 0

/-- Days in a month, as `datetime` validates `strptime`'s day capture. -/
def days_in_month (y m : Nat) : Nat :=
  if m = 2 then (if is_leap y then 29 else 28)
  else if m = 4 ∨ m = 6 ∨ m = 9 ∨ m = 11 then 30
  else 31

/-- The numeric value of a digit string. -/
def digits_to_nat (s : List Char) : Nat :=
  s.foldl (fun acc c => acc * 10 + (c.toNat - '0'.toNat)) 0

/-- Split on a separator character (Python `str.split` on `"-"`). -/
def split_on_char (sep : Char) : List Char → List (List Char)
  | [] => [[]]
  | c :: cs =>
    let rest := split_on_char sep cs
    if c = sep then [] :: rest
    else
      match rest with
      | [] => [[c]]
      | f :: fs => (c :: f) :: fs

/-- `datetime.strptime(date_str, "%Y-%m-%d")` as a partial parse: a
four-digit year of at least 1 (`datetime.MINYEAR`), a one- or two-digit
month in `1..12`, a one- or two-digit day valid for that month, nothing
left over. -/
def parse_date_ymd (s : List Char) : Option Date :=
  match split_on_char '-' s with
  | [ys, ms, ds] =>
    if ys.length = 4 ∧ ys.all Char.isDigit ∧
        1 ≤ ms.length ∧ ms.length ≤ 2 ∧ ms.all Char.isDigit ∧
        1 ≤ ds.length ∧ ds.length ≤ 2 ∧ ds.all Char.isDigit then
      let y := digits_to_nat ys
      let m := digits_to_nat ms
      let d := digits_to_nat ds
      if 1 ≤ y ∧ 1 ≤ m ∧ m ≤ 12 ∧ 1 ≤ d ∧ d ≤ days_in_month y m then
        some ⟨y, m, d⟩
      else none
    else none
  | _ => none

/-- The per-file step of `get_latest_top_monde_file`: files without
`"TOP MONDE_"` in the name are skipped, the prefix and the
`"_enhanced.csv"` / `".csv"` markers are stripped, anything from the first
space on is dropped, and the remainder must parse as `%Y-%m-%d`
(a `ValueError` is caught and the file skipped). -/
def try_parse_file (filename : List Char) : Option Date :=
  if py_in ("TOP MONDE_".toList) filename then
    parse_date_ymd (first_space_field
      (py_replace (".csv".toList) []
        (py_replace ("_enhanced.csv".toList) []
          (py_replace ("TOP MONDE_".toList) [] filename))))
  else none

/-- The selection loop: keep the file whose parsed date is strictly the
latest seen so far (`file_date > latest_date`; the first file wins a tie). -/
def select_latest : List (List Char) → Option (List Char × Date) → Option (List Char × Date)
  | [], acc => acc
  | f :: rest, acc =>
    match try_parse_file f, acc with
    | some d, none => select_latest rest (some (f, d))
    | some d, some (g, bd) =>
      if date_ltb bd d then select_latest rest (some (f, d))
      else select_latest rest (some (g, bd))
    | none, acc' => select_latest rest acc'

/-- The two errors `get_latest_top_monde_file` can raise:
`FileNotFoundError` when the glob finds nothing, `ValueError` when no
found file carries a parseable date. -/
inductive CurError where
  | fileNotFound : CurError
  | noValidDate : CurError
deriving DecidableEq, Repr

/-- `get_latest_top_monde_file` of `src/ticker_list.py` over the list of
files the glob returned. -/
def get_latest_top_monde_file (files : List (List Char)) : Except CurError (List Char) :=
  if files.isEmpty then .error .fileNotFound
  else
    match select_latest files none with
    | none => .error .noValidDate
    | some (f, _) => .ok f

/-! ## `create_ticker_lists` as an effectful run

The curator's effects are made explicit: the environment carries the glob
result, the parsed CSV (its header and rows), a flag for an unreadable
source file, and an oracle saying which of the sequential output-file
writes fails (raising the `OSError` the `except` block catches).  The run
returns the completely written files in write order and the function's
boolean result. -/

structure CurationEnv where
  files : List (List Char)
  cols : List String
  rows : List Row
  read_fails : Bool
  write_fails : Nat → Bool

/-- The sequential writing loop: file `i` is written completely unless the
oracle fails it, in which case the exception aborts the remaining writes
(files already written stay on disk). -/
def write_files_from : Nat → (Nat → Bool) → List (String × List String) → List (String × List String) × Bool
  | _, _, [] => ([], true)
  | i, fails, f :: rest =>
    if fails i then ([], false)
    else
      let out := write_files_from (i + 1) fails rest
      (f :: out.1, out.2)

/-- `create_ticker_lists` of `src/ticker_list.py`: select the latest
enhanced file, read it, validate the required columns, build the three
token lists, then write `top_monde_<date>.txt`,
`top_monde_2_7_<date>.txt` and `top_monde_worst_100_<date>.txt` in that
order.  Any raised error is caught by the `except` block and turns into a
`False` result; nothing written before the error is removed. -/
def create_ticker_lists (env : CurationEnv) (today : String) : List (String × List String) × Bool :=
  match get_latest_top_monde_file env.files with
  | .error _ => ([], false)
  | .ok _ =>
    if env.read_fails then ([], false)
    else if missing_columns required_columns env.cols ≠ [] then ([], false)
    else
      let unified := create_unified_list (top_30_list env.rows) (top_50_global_list env.rows)
      write_files_from 0 env.write_fails
        [("data/top_monde_" ++ today ++ ".txt", unified),
         ("data/top_monde_2_7_" ++ today ++ ".txt", score_27_list env.rows),
         ("data/top_monde_worst_100_" ++ today ++ ".txt", worst_100_list env.rows)]

deriving instance DecidableEq for Except

/-! ## Spec-side definitions (for refinement comparison only)

These definitions follow the words of the specification, not the source;
they exist solely to be compared against the source-derived definitions. -/

/-- Modelled from the spec (claim C1, Tier B): walk the score-descending
ranking of the cap-filtered records, skip any token already in Tier A, and
collect tokens until 15 are collected. -/
def spec_collect_tier_b (tierA : List String) : List Row → Nat → List String
  | [], _ => []
  | r :: rs, k =>
    if k = 0 then []
    else if tierA.contains (format_ticker r) then spec_collect_tier_b tierA rs k
    else format_ticker r :: spec_collect_tier_b tierA rs (k - 1)

/-- Modelled from the spec (claim C1): the tiered Top-30 — Tier A is the
top 15 cap-qualifying tokens by `score_2` descending, Tier B up to 15
further tokens in `score`-descending order skipping Tier A, and the Top-30
is Tier A followed by Tier B. -/
def spec_tiered_top30 (rows : List Row) : List String :=
  let caps := rows.filter cap_qualifies
  let tierA := format_ticker_list ((caps.insertionSort score2_desc).take 15)
  tierA ++ spec_collect_tier_b tierA (caps.insertionSort score_desc) 15

/-! ## Helpers for stating the claims -/

/-- An input row as read from the raw snapshot CSV: the identity pair plus
the eight numeric input columns; the derived columns do not exist in the
raw file and are represented by `0` placeholders (the transform overwrites
all eight unconditionally, so their initial value is never read). -/
def mk_input_row (sym exch : String) (price cap p1y p6m p3m p1m s21 s200 : ℚ) : Row :=
  { symbol := sym, exchange := exch,
    price := PVal.num price, market_capitalization := PVal.num cap,
    perf_1y := PVal.num p1y, perf_6m := PVal.num p6m,
    perf_3m := PVal.num p3m, perf_1m := PVal.num p1m,
    sma_21 := PVal.num s21, sma_200 := PVal.num s200,
    perf_sum := PVal.num 0, perf_norm := PVal.num 0,
    perfsum_2 := PVal.num 0, perf_norm_2 := PVal.num 0,
    MRAT := PVal.num 0, Diff := PVal.num 0,
    score := PVal.num 0, score_2 := PVal.num 0 }

/-- The numeric input columns of a row are unchanged by two-decimal
rounding (they already carry at most two decimals). -/
def round_stable_inputs (r : Row) : Prop :=
  round2v r.price = r.price ∧
  round2v r.market_capitalization = r.market_capitalization ∧
  round2v r.perf_1y = r.perf_1y ∧
  round2v r.perf_6m = r.perf_6m ∧
  round2v r.perf_3m = r.perf_3m ∧
  round2v r.perf_1m = r.perf_1m ∧
  round2v r.sma_21 = r.sma_21 ∧
  round2v r.sma_200 = r.sma_200

/-! ## Theorems -/

theorem contains_iff_mem' (l : List String) (c : String) :
    l.contains c = true ↔ c ∈ l := by
  simp [List.contains, List.elem_iff]

/-- C5: for every tabular dataset (its column list) and every ordered list
of required column names, the validator of `create_ticker_lists` returns
exactly the sublist of required names absent from the dataset's columns,
in the required list's order, and returns `[]` iff every required column is
present.  (`missing_columns` is a pure function of its arguments: the
dataset is not modified.) -/
theorem C5_validator (required cols : List String) :
    (missing_columns required cols).Sublist required ∧
    (∀ c, c ∈ missing_columns required cols ↔ c ∈ required ∧ c ∉ cols) ∧
    (missing_columns required cols = [] ↔ ∀ c ∈ required, c ∈ cols) := by
  refine ⟨List.filter_sublist _, fun c => ?_, ?_⟩
  · simp [missing_columns, List.mem_filter, contains_iff_mem']
  · simp [missing_columns, List.filter_eq_nil_iff, contains_iff_mem']

theorem unified_foldl (top30 : List String) :
    ∀ (l acc : List String),
      l.foldl (fun acc t => if t ∈ top30 then acc else acc ++ [t]) acc =
        acc ++ l.filter (fun t => decide (t ∉ top30)) := by
  intro l
  induction l with
  | nil => simp
  | cons t ts ih =>
    intro acc
    by_cases h : t ∈ top30 <;> simp [h, ih, List.filter_cons]

/-- C7: the unified list is exactly the first section header, the Top-30
tokens in order, the second section header, then the Top-50-global tokens
in their original order with every token already present in the Top-30
removed; consequently no Top-30 token reappears in the Top-50 section. -/
theorem C7_unified_list (top30 top50 : List String) :
    create_unified_list top30 top50 =
      "// Top 30 Big" :: (top30 ++ "// Top 50 Global" ::
        top50.filter (fun t => decide (t ∉ top30))) ∧
    ∀ t ∈ top50.filter (fun t => decide (t ∉ top30)), t ∉ top30 := by
  constructor
  · simp [create_unified_list, unified_foldl]
  · intro t ht
    rcases List.mem_filter.mp ht with ⟨_, hf⟩
    simpa using hf

/-- C2: for every input row with numeric performance, price and
moving-average columns (and a nonzero 200-period moving average, so that
the quotient is a number), the scoring transform computes
`perf_sum = p1y + p6m + p3m`, `perf_norm = 1 + perf_sum/1000`,
`perfsum_2 = p1m + p3m + p6m`, `perf_norm_2 = 1 + perfsum_2/1000`,
`MRAT = sma21/sma200`, `score = perf_norm + MRAT` and
`score_2 = perf_norm_2 + MRAT`. -/
theorem C2_scoring_formulas (sym exch : String)
    (price cap p1y p6m p3m p1m s21 s200 : ℚ) (h : s200 ≠ 0) :
    (calculate_scores (calculate_technical_indicators
        (calculate_performance_columns
          (mk_input_row sym exch price cap p1y p6m p3m p1m s21 s200)))).perf_sum =
        PVal.num (p1y + p6m + p3m) ∧
    (calculate_scores (calculate_technical_indicators
        (calculate_performance_columns
          (mk_input_row sym exch price cap p1y p6m p3m p1m s21 s200)))).perf_norm =
        PVal.num (1 + (p1y + p6m + p3m) / 1000) ∧
    (calculate_scores (calculate_technical_indicators
        (calculate_performance_columns
          (mk_input_row sym exch price cap p1y p6m p3m p1m s21 s200)))).perfsum_2 =
        PVal.num (p1m + p3m + p6m) ∧
    (calculate_scores (calculate_technical_indicators
        (calculate_performance_columns
          (mk_input_row sym exch price cap p1y p6m p3m p1m s21 s200)))).perf_norm_2 =
        PVal.num (1 + (p1m + p3m + p6m) / 1000) ∧
    (calculate_scores (calculate_technical_indicators
        (calculate_performance_columns
          (mk_input_row sym exch price cap p1y p6m p3m p1m s21 s200)))).MRAT =
        PVal.num (s21 / s200) ∧
    (calculate_scores (calculate_technical_indicators
        (calculate_performance_columns
          (mk_input_row sym exch price cap p1y p6m p3m p1m s21 s200)))).score =
        PVal.num ((1 + (p1y + p6m + p3m) / 1000) + s21 / s200) ∧
    (calculate_scores (calculate_technical_indicators
        (calculate_performance_columns
          (mk_input_row sym exch price cap p1y p6m p3m p1m s21 s200)))).score_2 =
        PVal.num ((1 + (p1m + p3m + p6m) / 1000) + s21 / s200) := by
  have h1000 : (1000 : ℚ) ≠ 0 := by norm_num
  refine ⟨?_, ?_, ?_, ?_, ?_, ?_, ?_⟩ <;>
    simp [calculate_scores, calculate_technical_indicators,
      calculate_performance_columns, mk_input_row, sumSkipna, padd, pdiv,
      h, h1000]

/-- C2 witness: the formulas evaluated at the sample row of the
repository's tests (`AAPL`: performances 25/12/5/2, price 150,
SMA21 148, SMA200 140). -/
theorem C2_scoring_formulas_witness :
    (calculate_scores (calculate_technical_indicators
        (calculate_performance_columns
          (mk_input_row "AAPL" "NASDAQ" 150 2500000000000 25 12 5 2 148 140)))).perf_sum =
        PVal.num (25 + 12 + 5) ∧
    (calculate_scores (calculate_technical_indicators
        (calculate_performance_columns
          (mk_input_row "AAPL" "NASDAQ" 150 2500000000000 25 12 5 2 148 140)))).perf_norm =
        PVal.num (1 + (25 + 12 + 5) / 1000) ∧
    (calculate_scores (calculate_technical_indicators
        (calculate_performance_columns
          (mk_input_row "AAPL" "NASDAQ" 150 2500000000000 25 12 5 2 148 140)))).perfsum_2 =
        PVal.num (2 + 5 + 12) ∧
    (calculate_scores (calculate_technical_indicators
        (calculate_performance_columns
          (mk_input_row "AAPL" "NASDAQ" 150 2500000000000 25 12 5 2 148 140)))).perf_norm_2 =
        PVal.num (1 + (2 + 5 + 12) / 1000) ∧
    (calculate_scores (calculate_technical_indicators
        (calculate_performance_columns
          (mk_input_row "AAPL" "NASDAQ" 150 2500000000000 25 12 5 2 148 140)))).MRAT =
        PVal.num (148 / 140) ∧
    (calculate_scores (calculate_technical_indicators
        (calculate_performance_columns
          (mk_input_row "AAPL" "NASDAQ" 150 2500000000000 25 12 5 2 148 140)))).score =
        PVal.num ((1 + (25 + 12 + 5) / 1000) + 148 / 140) ∧
    (calculate_scores (calculate_technical_indicators
        (calculate_performance_columns
          (mk_input_row "AAPL" "NASDAQ" 150 2500000000000 25 12 5 2 148 140)))).score_2 =
        PVal.num ((1 + (2 + 5 + 12) / 1000) + 148 / 140) :=
  C2_scoring_formulas "AAPL" "NASDAQ" 150 2500000000000 25 12 5 2 148 140
    (by norm_num)

theorem date_ltb_iff (a b : Date) : date_ltb a b = true ↔
    (a.y < b.y ∨ (a.y = b.y ∧ (a.m < b.m ∨ (a.m = b.m ∧ a.d < b.d)))) := by
  simp [date_ltb]

theorem date_ltb_irrefl (d : Date) : date_ltb d d = false := by
  simp [date_ltb]

theorem date_ltb_shift (a b c : Date) (h1 : date_ltb a b = true)
    (h2 : date_ltb c b = false) : date_ltb a c = true := by
  rw [date_ltb_iff] at h1 ⊢
  rw [← Bool.not_eq_true, date_ltb_iff] at h2
  omega

theorem date_ltb_mono (a b c : Date) (h1 : date_ltb a c = false)
    (h2 : date_ltb b c = true) : date_ltb a b = false := by
  rw [date_ltb_iff] at h2
  rw [← Bool.not_eq_true, date_ltb_iff] at h1 ⊢
  omega

theorem select_latest_none (files : List (List Char)) :
    ∀ acc, select_latest files acc = none ↔
      acc = none ∧ ∀ f ∈ files, try_parse_file f = none := by
  induction files with
  | nil => intro acc; simp [select_latest]
  | cons f fs ih =>
    intro acc
    cases hp : try_parse_file f with
    | none =>
      cases acc with
      | none => simp [select_latest, hp, ih, List.forall_mem_cons]
      | some p => simp [select_latest, hp, ih, List.forall_mem_cons]
    | some d =>
      cases acc with
      | none => simp [select_latest, hp, ih, List.forall_mem_cons]
      | some p =>
        obtain ⟨g0, b0⟩ := p
        by_cases hlt : date_ltb b0 d = true
        · simp [select_latest, hp, hlt, ih, List.forall_mem_cons]
        · simp only [Bool.not_eq_true] at hlt
          simp [select_latest, hp, hlt, ih, List.forall_mem_cons]

theorem select_latest_some (files : List (List Char)) :
    ∀ acc g d, select_latest files acc = some (g, d) →
      (acc = some (g, d) ∨ (g ∈ files ∧ try_parse_file g = some d)) ∧
      (∀ f ∈ files, ∀ d', try_parse_file f = some d' → date_ltb d d' = false) ∧
      (∀ g0 d0, acc = some (g0, d0) → date_ltb d d0 = false) := by
  induction files with
  | nil =>
    intro acc g d h
    simp only [select_latest] at h
    refine ⟨Or.inl h, by simp, fun g0 d0 h0 => ?_⟩
    rw [h0] at h
    cases h
    exact date_ltb_irrefl _
  | cons f fs ih =>
    intro acc g d h
    cases hp : try_parse_file f with
    | none =>
      simp only [select_latest, hp] at h
      obtain ⟨hmem, hmax, hacc⟩ := ih acc g d h
      refine ⟨?_, ?_, hacc⟩
      · rcases hmem with h1 | ⟨h1, h2⟩
        · exact Or.inl h1
        · exact Or.inr ⟨List.mem_cons_of_mem _ h1, h2⟩
      · intro f' hf' d' hd'
        rcases List.mem_cons.mp hf' with rfl | hf'
        · rw [hp] at hd'; cases hd'
        · exact hmax f' hf' d' hd'
    | some dv =>
      cases acc with
      | none =>
        simp only [select_latest, hp] at h
        obtain ⟨hmem, hmax, hacc⟩ := ih (some (f, dv)) g d h
        have hdv : date_ltb d dv = false := hacc f dv rfl
        refine ⟨?_, ?_, by simp⟩
        · rcases hmem with h1 | ⟨h1, h2⟩
          · cases h1
            exact Or.inr ⟨List.mem_cons_self _ _, hp⟩
          · exact Or.inr ⟨List.mem_cons_of_mem _ h1, h2⟩
        · intro f' hf' d' hd'
          rcases List.mem_cons.mp hf' with rfl | hf'
          · rw [hp] at hd'
            cases hd'
            exact hdv
          · exact hmax f' hf' d' hd'
      | some p =>
        obtain ⟨g0, b0⟩ := p
        by_cases hlt : date_ltb b0 dv = true
        · simp only [select_latest, hp, hlt, if_true] at h
          obtain ⟨hmem, hmax, hacc⟩ := ih (some (f, dv)) g d h
          have hdv : date_ltb d dv = false := hacc f dv rfl
          refine ⟨?_, ?_, ?_⟩
          · rcases hmem with h1 | ⟨h1, h2⟩
            · cases h1
              exact Or.inr ⟨List.mem_cons_self _ _, hp⟩
            · exact Or.inr ⟨List.mem_cons_of_mem _ h1, h2⟩
          · intro f' hf' d' hd'
            rcases List.mem_cons.mp hf' with rfl | hf'
            · rw [hp] at hd'
              cases hd'
              exact hdv
            · exact hmax f' hf' d' hd'
          · intro g0' b0' h0
            cases h0
            exact date_ltb_mono d b0 dv hdv hlt
        · simp only [Bool.not_eq_true] at hlt
          simp only [select_latest, hp, hlt, Bool.false_eq_true, if_false] at h
          obtain ⟨hmem, hmax, hacc⟩ := ih (some (g0, b0)) g d h
          have hb0 : date_ltb d b0 = false := hacc g0 b0 rfl
          refine ⟨?_, ?_, ?_⟩
          · rcases hmem with h1 | ⟨h1, h2⟩
            · exact Or.inl h1
            · exact Or.inr ⟨List.mem_cons_of_mem _ h1, h2⟩
          · intro f' hf' d' hd'
            rcases List.mem_cons.mp hf' with rfl | hf'
            · rw [hp] at hd'
              cases hd'
              by_contra hc
              simp only [Bool.not_eq_false] at hc
              have := date_ltb_shift d dv b0 hc hlt
              rw [this] at hb0
              cases hb0
            · exact hmax f' hf' d' hd'
          · intro g0' b0' h0
            cases h0
            exact hb0

/-- C10: the curator's input selection picks, among the enhanced files the
glob found, one whose embedded date parses and is the most recent parseable
date; files whose date does not parse are skipped without aborting the
selection; `FileNotFoundError` is raised when no enhanced file exists; the
distinct `ValueError` is raised exactly when files exist but none carries a
parseable date. -/
theorem C10_latest_file_selection (files : List (List Char)) :
    (files = [] → get_latest_top_monde_file files = .error CurError.fileNotFound) ∧
    (files ≠ [] →
      (get_latest_top_monde_file files = .error CurError.noValidDate ↔
        ∀ f ∈ files, try_parse_file f = none)) ∧
    (∀ g, get_latest_top_monde_file files = .ok g →
      g ∈ files ∧ ∃ d, try_parse_file g = some d ∧
        ∀ f ∈ files, ∀ d', try_parse_file f = some d' → date_ltb d d' = false) ∧
    CurError.fileNotFound ≠ CurError.noValidDate := by
  refine ⟨?_, ?_, ?_, by simp⟩
  · intro h
    subst h
    simp [get_latest_top_monde_file]
  · intro hne
    rw [← List.isEmpty_eq_false] at hne
    constructor
    · intro h
      cases hsel : select_latest files none with
      | none => exact ((select_latest_none files none).mp hsel).2
      | some p =>
        obtain ⟨g, d⟩ := p
        simp [get_latest_top_monde_file, hne, hsel] at h
    · intro h
      have : select_latest files none = none :=
        (select_latest_none files none).mpr ⟨rfl, h⟩
      simp [get_latest_top_monde_file, hne, this]
  · intro g hg
    simp only [get_latest_top_monde_file] at hg
    by_cases he : files.isEmpty
    · rw [if_pos he] at hg
      cases hg
    · rw [if_neg he] at hg
      cases hsel : select_latest files none with
      | none => rw [hsel] at hg; cases hg
      | some p =>
        obtain ⟨g', d⟩ := p
        rw [hsel] at hg
        cases hg
        obtain ⟨hmem, hmax, _⟩ := select_latest_some files none g d hsel
        rcases hmem with h1 | ⟨h1, h2⟩
        · cases h1
        · exact ⟨h1, d, h2, hmax⟩

theorem countP_lt_length_of_mem {α : Type} (p : α → Bool) (l : List α) (a : α)
    (ha : a ∈ l) (hpa : p a = false) : l.countP p < l.length := by
  induction l with
  | nil => cases ha
  | cons x xs ih =>
    rcases List.mem_cons.mp ha with rfl | ha
    · rw [List.countP_cons, hpa]
      simp only [Bool.false_eq_true, if_false, List.length_cons]
      have := List.countP_le_length (l := xs) (p := p)
      omega
    · rw [List.countP_cons, List.length_cons]
      have := ih ha
      cases hx : p x <;> simp [hx] <;> omega

/-- A generic fact about `head(n)` of a stable sort: any element of the
taken prefix has fewer than `n` elements of the original list strictly
before it in the sort order. -/
theorem take_sorted_countP {α : Type} (le : α → α → Prop) [DecidableRel le]
    [IsTotal α le] [IsTrans α le] (l : List α) (n : Nat) (r : α)
    (hr : r ∈ (l.insertionSort le).take n) :
    l.countP (fun x => !(decide (le r x))) < n := by
  set p : α → Bool := fun x => !(decide (le r x)) with hp
  have hperm : (l.insertionSort le).Perm l := List.perm_insertionSort le l
  rw [← hperm.countP_eq p]
  have hsplit := List.take_append_drop n (l.insertionSort le)
  have hpair : (l.insertionSort le).Pairwise le := List.sorted_insertionSort le l
  rw [← hsplit] at hpair
  obtain ⟨_, _, hcross⟩ := List.pairwise_append.mp hpair
  rw [← hsplit, List.countP_append]
  have hdrop : ((l.insertionSort le).drop n).countP p = 0 := by
    rw [List.countP_eq_zero]
    intro y hy
    have := hcross r hr y hy
    simp [hp, this]
  have htake : ((l.insertionSort le).take n).countP p < ((l.insertionSort le).take n).length := by
    refine countP_lt_length_of_mem p _ r hr ?_
    have : le r r := (IsTotal.total (r := le) r r).elim id id
    simp [hp, this]
  have hlen : ((l.insertionSort le).take n).length ≤ n := List.length_take_le _ _
  omega

/-- C6: the worst-performers list is the `head(100)` of the records with
strictly positive `score` in ascending `score` order: at most 100 tokens,
each the token of a strictly-positive-score record of the dataset (records
with `score <= 0` — and `nan` scores — never contribute), tokens appear in
ascending score order, all qualifying records appear when at most 100 of
them exist, and every listed record has fewer than 100 qualifying records
with a strictly smaller sort key. -/
theorem C6_worst_performers (rows : List Row) :
    ∃ rs : List Row,
      worst_100_list rows = format_ticker_list rs ∧
      rs.length ≤ 100 ∧
      (∀ r ∈ rs, r ∈ rows ∧ gtb r.score (PVal.num 0) = true) ∧
      rs.Pairwise score_asc ∧
      ((rows.filter (fun r => gtb r.score (PVal.num 0))).length ≤ 100 →
        rs.Perm (rows.filter (fun r => gtb r.score (PVal.num 0)))) ∧
      (∀ r ∈ rs,
        (rows.filter (fun r => gtb r.score (PVal.num 0))).countP
          (fun x => !(decide (score_asc r x))) < 100) := by
  refine ⟨_, rfl, List.length_take_le _ _, ?_, ?_, ?_, ?_⟩
  · intro r hr
    have h1 : r ∈ (rows.filter (fun r => gtb r.score (PVal.num 0))).insertionSort score_asc :=
      List.take_subset _ _ hr
    have h2 := (List.perm_insertionSort score_asc _).mem_iff.mp h1
    exact ⟨(List.mem_filter.mp h2).1, (List.mem_filter.mp h2).2⟩
  · exact (List.sorted_insertionSort score_asc _).sublist (List.take_sublist _ _)
  · intro hlen
    rw [List.take_of_length_le]
    · exact List.perm_insertionSort _ _
    · rw [List.length_insertionSort]
      exact hlen
  · intro r hr
    exact take_sorted_countP score_asc _ 100 r hr

/-- C1 (amended): the Top-30 of `create_ticker_lists` is single-tier — the
`head(30)` of the records with market capitalization at least ten billion
ranked by `score` descending: at most 30 tokens, each from a cap-qualifying
record of the dataset, in descending score order, with all qualifying
records present when at most 30 exist, and every selected record preceded
by fewer than 30 qualifying records in the descending order. -/
theorem C1_amended_top30 (rows : List Row) :
    ∃ rs : List Row,
      top_30_list rows = format_ticker_list rs ∧
      rs.length ≤ 30 ∧
      (∀ r ∈ rs, r ∈ rows ∧ cap_qualifies r = true) ∧
      rs.Pairwise score_desc ∧
      ((rows.filter cap_qualifies).length ≤ 30 →
        rs.Perm (rows.filter cap_qualifies)) ∧
      (∀ r ∈ rs,
        (rows.filter cap_qualifies).countP
          (fun x => !(decide (score_desc r x))) < 30) := by
  refine ⟨_, rfl, List.length_take_le _ _, ?_, ?_, ?_, ?_⟩
  · intro r hr
    have h1 : r ∈ (rows.filter cap_qualifies).insertionSort score_desc :=
      List.take_subset _ _ hr
    have h2 := (List.perm_insertionSort score_desc _).mem_iff.mp h1
    exact ⟨(List.mem_filter.mp h2).1, (List.mem_filter.mp h2).2⟩
  · exact (List.sorted_insertionSort score_desc _).sublist (List.take_sublist _ _)
  · intro hlen
    rw [List.take_of_length_le]
    · exact List.perm_insertionSort _ _
    · rw [List.length_insertionSort]
      exact hlen
  · intro r hr
    exact take_sorted_countP score_desc _ 30 r hr

/-- A cap-qualifying record with `score = 3` and `score_2 = 1`. -/
def c1_row_a : Row :=
  { symbol := "A", exchange := "E",
    price := PVal.num 10, market_capitalization := PVal.num 20000000000,
    perf_1y := PVal.num 0, perf_6m := PVal.num 0,
    perf_3m := PVal.num 0, perf_1m := PVal.num 0,
    sma_21 := PVal.num 10, sma_200 := PVal.num 10,
    perf_sum := PVal.num 0, perf_norm := PVal.num 0,
    perfsum_2 := PVal.num 0, perf_norm_2 := PVal.num 0,
    MRAT := PVal.num 0, Diff := PVal.num 0,
    score := PVal.num 3, score_2 := PVal.num 1 }

/-- A cap-qualifying record with `score = 2` and `score_2 = 2`. -/
def c1_row_b : Row :=
  { c1_row_a with symbol := "B", score := PVal.num 2, score_2 := PVal.num 2 }

/-- C1 (counterexample): on the two-record dataset `[A, B]` with
`score(A) = 3 > 2 = score(B)` but `score_2(A) = 1 < 2 = score_2(B)`, the
Top-30 the code builds is `["E:A", "E:B"]` (by `score` alone), while the
tiered selection the claim describes puts Tier A in `score_2` order and
yields `["E:B", "E:A"]` — so the claimed tiered structure does not hold. -/
theorem C1_counterexample :
    top_30_list [c1_row_a, c1_row_b] ≠ spec_tiered_top30 [c1_row_a, c1_row_b] ∧
    top_30_list [c1_row_a, c1_row_b] = ["E:A", "E:B"] ∧
    spec_tiered_top30 [c1_row_a, c1_row_b] = ["E:B", "E:A"] := by
  have hcap : cap_qualifies c1_row_a = true := by
    norm_num [cap_qualifies, c1_row_a, geb, leb]
  have hcap2 : cap_qualifies c1_row_b = true := by
    norm_num [cap_qualifies, c1_row_b, c1_row_a, geb, leb]
  have hfil : [c1_row_a, c1_row_b].filter cap_qualifies = [c1_row_a, c1_row_b] := by
    simp [List.filter_cons, hcap, hcap2]
  have hdesc : score_desc c1_row_a c1_row_b := by
    norm_num [score_desc, pv_desc_le, c1_row_a, c1_row_b, leb]
  have hdesc2 : ¬ score2_desc c1_row_a c1_row_b := by
    norm_num [score2_desc, pv_desc_le, c1_row_a, c1_row_b, leb]
  have hsort : [c1_row_a, c1_row_b].insertionSort score_desc = [c1_row_a, c1_row_b] := by
    simp [List.insertionSort, List.orderedInsert, hdesc]
  have hsort2 : [c1_row_a, c1_row_b].insertionSort score2_desc = [c1_row_b, c1_row_a] := by
    simp [List.insertionSort, List.orderedInsert, hdesc2]
  have htop : top_30_list [c1_row_a, c1_row_b] = ["E:A", "E:B"] := by
    rw [top_30_list, hfil, hsort]
    simp [format_ticker_list, format_ticker, c1_row_a, c1_row_b]
  have hspec : spec_tiered_top30 [c1_row_a, c1_row_b] = ["E:B", "E:A"] := by
    rw [spec_tiered_top30]
    simp only [hfil, hsort, hsort2]
    simp [format_ticker_list, format_ticker, spec_collect_tier_b,
      c1_row_a, c1_row_b]
  refine ⟨?_, htop, hspec⟩
  rw [htop, hspec]
  simp

theorem round2v_fillna0_ne_nan (v : PVal) : round2v (fillna0 v) ≠ PVal.nan := by
  cases v <;> simp [fillna0, round2v]

/-- C3 (amended): after the scoring transform no derived column is null in
any row — every `nan` among the eight derived columns (from `0/0` division
or missing upstream values) is coerced to `0` by the `fillna(0)` step and
stays non-null through rounding.  (A nonzero value divided by zero is a
signed infinity, which is not null and is not coerced to `0`; see the
counterexample.) -/
theorem C3_amended_no_nulls (rows : List Row) (r : Row)
    (h : r ∈ process_dataframe rows) :
    r.perf_sum ≠ PVal.nan ∧ r.perf_norm ≠ PVal.nan ∧
    r.perfsum_2 ≠ PVal.nan ∧ r.perf_norm_2 ≠ PVal.nan ∧
    r.MRAT ≠ PVal.nan ∧ r.Diff ≠ PVal.nan ∧
    r.score ≠ PVal.nan ∧ r.score_2 ≠ PVal.nan := by
  rw [process_dataframe] at h
  have h2 := (List.perm_insertionSort score_desc _).mem_iff.mp h
  obtain ⟨x, _, rfl⟩ := List.mem_map.mp h2
  refine ⟨?_, ?_, ?_, ?_, ?_, ?_, ?_, ?_⟩ <;>
    (dsimp only [process_row, round_numeric, fillna_derived, calculate_scores,
      calculate_technical_indicators, calculate_performance_columns]
     exact round2v_fillna0_ne_nan _)

/-- A record whose 200-period moving average is zero while its 21-period
moving average is `5`: `MRAT = 5/0`. -/
def c3_row : Row :=
  { symbol := "Z", exchange := "E",
    price := PVal.num 1, market_capitalization := PVal.num 0,
    perf_1y := PVal.num 0, perf_6m := PVal.num 0,
    perf_3m := PVal.num 0, perf_1m := PVal.num 0,
    sma_21 := PVal.num 5, sma_200 := PVal.num 0,
    perf_sum := PVal.num 0, perf_norm := PVal.num 0,
    perfsum_2 := PVal.num 0, perf_norm_2 := PVal.num 0,
    MRAT := PVal.num 0, Diff := PVal.num 0,
    score := PVal.num 0, score_2 := PVal.num 0 }

/-- C3 (counterexample): on a record with `SMA21 = 5` and `SMA200 = 0` the
division by zero in `MRAT` produces `+inf`, which the transform persists
unchanged — it is not coerced to `0` as the claim states. -/
theorem C3_counterexample :
    (process_dataframe [c3_row]).map Row.MRAT = [PVal.inf false] ∧
    PVal.inf false ≠ PVal.num 0 := by
  constructor
  · rw [process_dataframe]
    simp only [List.map_cons, List.map_nil, List.insertionSort,
      List.orderedInsert]
    dsimp only [process_row, round_numeric, fillna_derived, calculate_scores,
      calculate_technical_indicators, calculate_performance_columns, c3_row]
    norm_num [pdiv, fillna0, round2v]
  · simp

/-- C3 witness: the non-null property instantiated on the singleton
dataset `[c3_row]` at its (unique) output row. -/
theorem C3_amended_no_nulls_witness :
    (process_row c3_row).perf_sum ≠ PVal.nan ∧
    (process_row c3_row).perf_norm ≠ PVal.nan ∧
    (process_row c3_row).perfsum_2 ≠ PVal.nan ∧
    (process_row c3_row).perf_norm_2 ≠ PVal.nan ∧
    (process_row c3_row).MRAT ≠ PVal.nan ∧
    (process_row c3_row).Diff ≠ PVal.nan ∧
    (process_row c3_row).score ≠ PVal.nan ∧
    (process_row c3_row).score_2 ≠ PVal.nan :=
  C3_amended_no_nulls [c3_row] (process_row c3_row)
    (by simp [process_dataframe, List.insertionSort, List.orderedInsert])

theorem write_files_from_ok (fails : Nat → Bool) :
    ∀ (items : List (String × List String)) (i : Nat),
      (write_files_from i fails items).2 = true →
      (write_files_from i fails items).1 = items := by
  intro items
  induction items with
  | nil => intro i _; rfl
  | cons f rest ih =>
    intro i h
    by_cases hf : fails i = true
    · simp [write_files_from, hf] at h
    · simp only [write_files_from, hf, Bool.false_eq_true, if_false] at h ⊢
      rw [ih (i + 1) h]

/-- C9 (amended): every curation error raised before the writing phase —
no enhanced file, no parseable date, an unreadable source, or missing
required columns — aborts the run with no output file written at all; and
a run that reports success has written all three list files completely.
(A failure injected during the sequential writing phase itself aborts the
run but leaves the files already written in place: there is no rollback,
so such a failed run keeps a complete prefix of the outputs — see the
counterexample.) -/
theorem C9_amended_no_partial_output (env : CurationEnv) (today : String) :
    ((get_latest_top_monde_file env.files = .error CurError.fileNotFound ∨
      get_latest_top_monde_file env.files = .error CurError.noValidDate ∨
      env.read_fails = true ∨
      missing_columns required_columns env.cols ≠ []) →
      create_ticker_lists env today = ([], false)) ∧
    ((create_ticker_lists env today).2 = true →
      (create_ticker_lists env today).1 =
        [("data/top_monde_" ++ today ++ ".txt",
           create_unified_list (top_30_list env.rows) (top_50_global_list env.rows)),
         ("data/top_monde_2_7_" ++ today ++ ".txt", score_27_list env.rows),
         ("data/top_monde_worst_100_" ++ today ++ ".txt", worst_100_list env.rows)]) := by
  constructor
  · intro h
    cases hm : get_latest_top_monde_file env.files with
    | error e => simp [create_ticker_lists, hm]
    | ok f =>
      rcases h with h | h | h | h
      · rw [hm] at h; cases h
      · rw [hm] at h; cases h
      · simp [create_ticker_lists, hm, h]
      · by_cases hr : env.read_fails = true
        · simp [create_ticker_lists, hm, hr]
        · simp only [Bool.not_eq_true] at hr
          simp [create_ticker_lists, hm, hr, h]
  · intro h
    cases hm : get_latest_top_monde_file env.files with
    | error e => rw [create_ticker_lists, hm] at h ⊢; cases h
    | ok f =>
      rw [create_ticker_lists, hm] at h ⊢
      by_cases hr : env.read_fails = true
      · rw [if_pos hr] at h; cases h
      · simp only [Bool.not_eq_true] at hr
        rw [hr] at h ⊢
        simp only [Bool.false_eq_true, if_false] at h ⊢
        by_cases hmc : missing_columns required_columns env.cols ≠ []
        · rw [if_pos hmc] at h; cases h
        · rw [if_neg hmc] at h ⊢
          exact write_files_from_ok env.write_fails _ 0 h

/-- A curation environment with a valid enhanced file, the required
columns, an empty dataset, and an oracle that fails the second file
write. -/
def c9_env : CurationEnv :=
  { files := ["TOP MONDE_2024-01-05_enhanced.csv".toList],
    cols := required_columns,
    rows := [],
    read_fails := false,
    write_fails := fun i => i == 1 }

/-- C9 (counterexample): when the write of the second list file raises, the
run reports failure, yet the first named output list file has already been
written in full — the failed run did not leave the output state
unchanged. -/
theorem C9_counterexample :
    (create_ticker_lists c9_env "2024-01-05").2 = false ∧
    (create_ticker_lists c9_env "2024-01-05").1 ≠ [] := by
  constructor
  · decide
  · decide

theorem rhe_intCast (n : ℤ) : rhe ((n : ℤ) : ℚ) = n := by
  rw [rhe, Int.floor_intCast]
  simp

theorem round2_idem (q : ℚ) : round2 (round2 q) = round2 q := by
  have h : round2 q * 100 = ((rhe (q * 100) : ℤ) : ℚ) := by
    rw [round2]
    field_simp
  rw [show round2 (round2 q) = ((rhe (round2 q * 100) : ℤ) : ℚ) / 100 from rfl,
    h, rhe_intCast, round2]

theorem round2v_idem (v : PVal) : round2v (round2v v) = round2v v := by
  cases v <;> simp [round2v, round2_idem]

theorem round2_intCast (n : ℤ) : round2 ((n : ℤ) : ℚ) = ((n : ℤ) : ℚ) := by
  rw [round2]
  have : ((n : ℤ) : ℚ) * 100 = ((n * 100 : ℤ) : ℚ) := by push_cast; ring
  rw [this, rhe_intCast]
  push_cast
  ring

theorem round2_zero : round2 (0 : ℚ) = 0 := by
  have := round2_intCast 0
  simpa using this

theorem round2_one : round2 (1 : ℚ) = 1 := by
  have := round2_intCast 1
  simpa using this

theorem process_row_fixed (r : Row) (h : round_stable_inputs r) :
    process_row (process_row r) = process_row r := by
  obtain ⟨h1, h2, h3, h4, h5, h6, h7, h8⟩ := h
  dsimp only [process_row, round_numeric, fillna_derived, calculate_scores,
    calculate_technical_indicators, calculate_performance_columns]
  simp [Row.mk.injEq, h1, h2, h3, h4, h5, h6, h7, h8, round2v_idem]

theorem map_eq_self_of {α : Type} (l : List α) (f : α → α)
    (h : ∀ x ∈ l, f x = x) : l.map f = l := by
  induction l with
  | nil => rfl
  | cons x xs ih =>
    rw [List.map_cons, h x (List.mem_cons_self x xs),
      ih (fun y hy => h y (List.mem_cons_of_mem x hy))]

/-- C8 (amended): the scoring transform is a value-level fixed point on its
own output for datasets whose numeric input columns already carry at most
two decimals (are unchanged by rounding): re-applying the transform to any
row of the persisted output recomputes identical values in every column
(the eight derived columns included), and a second run of
`_process_dataframe` on the persisted output contains exactly the rows of
that output (a permutation; the relative order of equal-score rows is left
to the sort and is not asserted).  Without the rounding condition the
second run recomputes the derived columns from the rounded input columns
and can differ — see the counterexample. -/
theorem C8_amended_fixed_point (rows : List Row)
    (h : ∀ r ∈ rows, round_stable_inputs r) :
    (∀ r ∈ process_dataframe rows, process_row r = r) ∧
    (process_dataframe (process_dataframe rows)).Perm (process_dataframe rows) := by
  have hfix : ∀ r ∈ process_dataframe rows, process_row r = r := by
    intro r hr
    rw [process_dataframe] at hr
    have h2 := (List.perm_insertionSort score_desc _).mem_iff.mp hr
    obtain ⟨x, hx, rfl⟩ := List.mem_map.mp h2
    exact process_row_fixed x (h x hx)
  refine ⟨hfix, ?_⟩
  rw [show process_dataframe (process_dataframe rows) =
      ((process_dataframe rows).map process_row).insertionSort score_desc from rfl]
  rw [map_eq_self_of _ _ hfix]
  exact List.perm_insertionSort _ _

/-- C8 witness: the value-level fixed point evaluated on a one-record
dataset with integer-valued (hence round-stable) input columns. -/
theorem C8_amended_fixed_point_witness :
    (∀ r ∈ process_dataframe [mk_input_row "W" "E" 1 1 0 0 0 0 1 1],
      process_row r = r) ∧
    (process_dataframe (process_dataframe [mk_input_row "W" "E" 1 1 0 0 0 0 1 1])).Perm
      (process_dataframe [mk_input_row "W" "E" 1 1 0 0 0 0 1 1]) :=
  C8_amended_fixed_point [mk_input_row "W" "E" 1 1 0 0 0 0 1 1]
    (by
      intro r hr
      rw [List.mem_singleton] at hr
      subst hr
      refine ⟨?_, ?_, ?_, ?_, ?_, ?_, ?_, ?_⟩ <;>
        simp [mk_input_row, round2v, round2_zero, round2_one])

theorem rhe_eq_lo (x : ℚ) (z : ℤ) (h1 : (z : ℚ) ≤ x) (h2 : x - z < 1/2) :
    rhe x = z := by
  have hfl : ⌊x⌋ = z := Int.floor_eq_iff.mpr ⟨h1, by linarith⟩
  rw [rhe, hfl, if_pos h2]

theorem process_dataframe_singleton (r : Row) :
    process_dataframe [r] = [process_row r] := by
  simp [process_dataframe, List.insertionSort, List.orderedInsert]

theorem process_row_perf_sum (y : Row) (a b c : ℚ) (h1 : y.perf_1y = PVal.num a)
    (h2 : y.perf_6m = PVal.num b) (h3 : y.perf_3m = PVal.num c) :
    (process_row y).perf_sum = PVal.num (round2 (a + b + c)) := by
  dsimp only [process_row, round_numeric, fillna_derived, calculate_scores,
    calculate_technical_indicators, calculate_performance_columns]
  rw [h1, h2, h3]
  simp [sumSkipna, padd, fillna0, round2v, add_assoc]

theorem process_row_perf_1y (y : Row) (a : ℚ) (h : y.perf_1y = PVal.num a) :
    (process_row y).perf_1y = PVal.num (round2 a) := by
  dsimp only [process_row, round_numeric, fillna_derived, calculate_scores,
    calculate_technical_indicators, calculate_performance_columns]
  rw [h]
  simp [round2v]

theorem process_row_perf_6m (y : Row) (a : ℚ) (h : y.perf_6m = PVal.num a) :
    (process_row y).perf_6m = PVal.num (round2 a) := by
  dsimp only [process_row, round_numeric, fillna_derived, calculate_scores,
    calculate_technical_indicators, calculate_performance_columns]
  rw [h]
  simp [round2v]

theorem process_row_perf_3m (y : Row) (a : ℚ) (h : y.perf_3m = PVal.num a) :
    (process_row y).perf_3m = PVal.num (round2 a) := by
  dsimp only [process_row, round_numeric, fillna_derived, calculate_scores,
    calculate_technical_indicators, calculate_performance_columns]
  rw [h]
  simp [round2v]

/-- A record whose three trailing performances are `0.4%` each: their raw
sum `0.012` rounds to `0.01`, but the individually rounded columns are `0`
and re-summing them gives `0`. -/
def c8_row : Row := mk_input_row "C" "E" 1 0 (1/250) (1/250) (1/250) 0 1 1

/-- C8 (counterexample): on the one-record dataset with performances
`0.004` each, the first run persists `perf_sum = 0.01` (rounded from
`0.012`) and rounds each performance column to `0`; the second run, applied
to that persisted output, recomputes `perf_sum = 0` — the derived column
values are not identical, so the transform is not a fixed point on its own
output in general. -/
theorem C8_counterexample :
    (process_dataframe (process_dataframe [c8_row])).map Row.perf_sum ≠
      (process_dataframe [c8_row]).map Row.perf_sum ∧
    (process_dataframe [c8_row]).map Row.perf_sum = [PVal.num (1/100)] ∧
    (process_dataframe (process_dataframe [c8_row])).map Row.perf_sum =
      [PVal.num 0] := by
  have h250 : round2 (1/250 : ℚ) = 0 := by
    rw [round2]
    have hx : (1/250 : ℚ) * 100 = 2/5 := by norm_num
    rw [hx, rhe_eq_lo (2/5) 0 (by norm_num) (by norm_num)]
    norm_num
  have h3250 : round2 (3/250 : ℚ) = 1/100 := by
    rw [round2]
    have hx : (3/250 : ℚ) * 100 = 6/5 := by norm_num
    rw [hx, rhe_eq_lo (6/5) 1 (by norm_num) (by norm_num)]
    norm_num
  have hrun1 : (process_row c8_row).perf_sum = PVal.num (1/100) := by
    rw [process_row_perf_sum c8_row (1/250) (1/250) (1/250) rfl rfl rfl]
    norm_num [h3250]
  have h1y : (process_row c8_row).perf_1y = PVal.num 0 := by
    rw [process_row_perf_1y c8_row (1/250) rfl, h250]
  have h6m : (process_row c8_row).perf_6m = PVal.num 0 := by
    rw [process_row_perf_6m c8_row (1/250) rfl, h250]
  have h3m : (process_row c8_row).perf_3m = PVal.num 0 := by
    rw [process_row_perf_3m c8_row (1/250) rfl, h250]
  have hrun2 : (process_row (process_row c8_row)).perf_sum = PVal.num 0 := by
    rw [process_row_perf_sum _ 0 0 0 h1y h6m h3m]
    norm_num [round2_zero]
  rw [process_dataframe_singleton, process_dataframe_singleton]
  refine ⟨?_, by simp [hrun1], by simp [hrun2]⟩
  simp only [List.map_cons, List.map_nil, hrun1, hrun2, ne_eq,
    List.cons.injEq, and_true]
  intro hc
  rw [PVal.num.injEq] at hc
  norm_num at hc

end TriggerBot
